import Mathlib

/-!
Verification of the pyglidein submit-script generators (`submit.py`).

The source builds batch-scheduler submission scripts from a resource request
("state") and a nested cluster configuration, for two back ends (PBS and
HTCondor).  The embedding below mirrors the source:

* every `write_line(f, l)` call is modelled as emitting the chunk `l ++ "\n"`;
  a bare `f.write(s)` emits the chunk `s`; the file content is the
  concatenation (`String.join`) of the emitted chunks;
* Python integers are `Nat` (all quantities in play — cpus, memory, disk,
  gpus, mem_per_core, walltime — are non-negative); Python float arithmetic
  (`x * 1.1`, true division `/`) is modelled as exact rational arithmetic,
  and the `%d` / `int(...)` conversions (truncation toward zero, i.e. floor
  on non-negative values) are modelled with `Nat` floor division:
  `int(x * 1.1) = 11 * x / 10` and `int((m / c) * 1.1) = 11 * m / (10 * c)`;
* `raise Exception(...)` is modelled by returning `some err` together with
  the chunks already written to the (buffered, but eventually flushed)
  file object;
* the on-disk filesystem is a map `String → Option String` from path to file
  content; `os.path.isfile p` is `(fs p).isSome`; `open(filename, "w")`
  creates/truncates the file before anything else happens.
-/

/-- A resource request (`state` in the source): cpus, memory (MB), disk (GB),
gpus and the cvmfs flag. -/
structure GlideinState where
  cpus : Nat
  memory : Nat
  disk : Nat
  gpus : Nat
  cvmfs : Bool
deriving DecidableEq, Repr

/-- The `Cluster` group of the configuration. -/
structure ClusterCfg where
  mem_per_core : Nat
  walltime_hrs : Nat
  submit_command : String
deriving DecidableEq, Repr

/-- The `SubmitFile` group of the configuration; optional keys are `Option`. -/
structure SubmitFileCfg where
  filename : String
  env_wrapper_name : String
  local_dir : String
  custom_header : Option String
  custom_middle : Option String
  custom_body : Option String
  custom_footer : Option String
  custom_end : Option String
deriving DecidableEq, Repr

/-- The `Glidein` group of the configuration. -/
structure GlideinCfg where
  executable : String
  tarball : Option String
  loc : String
deriving DecidableEq, Repr

/-- The whole cluster configuration; `CustomEnv` is the (possibly empty)
list of extra key/value environment pairs. -/
structure Config where
  cluster : ClusterCfg
  submitFile : SubmitFileCfg
  glidein : GlideinCfg
  customEnv : List (String × String)
deriving DecidableEq, Repr

/-- Python `%s` of a bool renders `True` / `False`. -/
def pyBool (b : Bool) : String := if b then "True" else "False"

/-! ### PBS generator (`SubmitPBS`) -/

/-- The CPU-escalation loop of `SubmitPBS.write_submit_file`:

    num_cpus = state["cpus"]
    while state["memory"] > mem_per_core * num_cpus:
        num_cpus += 1

The source loop does not terminate when `mem_per_core = 0` and `memory > 0`;
the model returns `n` there (all theorems about it assume
`0 < mem_per_core`, as does the spec). -/
def escalateCpus (memory mpc n : Nat) : Nat :=
  if h : 0 < mpc ∧ mpc * n < memory then escalateCpus memory mpc (n + 1) else n
termination_by memory - mpc * n
decreasing_by
  rw [Nat.mul_succ]
  omega

/-- Model of `SubmitPBS.write_general_header`: the `#PBS` directive block.
For `num_gpus = 0` the memory directive is `%d` of `mem / num_cpus`
(exact in the reachable call sites, where `num_cpus ∣ mem`); for
`num_gpus ≠ 0` it is `%d` of `(mem / num_cpus) * 1.1`, i.e.
`11 * mem / (10 * num_cpus)`. -/
def write_general_header (mem wall_time_hours num_nodes num_cpus num_gpus : Nat) :
    List String :=
  ["#!/bin/bash\n"] ++
  (if num_gpus = 0 then
    [s!"#PBS -l nodes={num_nodes}:ppn={num_cpus}\n"]
  else
    [s!"#PBS -l nodes={num_nodes}:ppn={num_cpus}:gpus={num_gpus}\n"]) ++
  (if num_gpus = 0 then
    [s!"#PBS -l mem={mem / num_cpus}mb,pmem={mem / num_cpus}mb\n"]
  else
    [s!"#PBS -l mem={11 * mem / (10 * num_cpus)}mb,pmem={11 * mem / (10 * num_cpus)}mb\n"]) ++
  [s!"#PBS -l walltime={wall_time_hours}:00:00\n",
   "#PBS -o $HOME/glidein/out/$\x7bPBS_JOBID\x7d.out\n",
   "#PBS -e $HOME/glidein/out/$\x7bPBS_JOBID\x7d.err\n"]

/-- Model of `SubmitPBS.write_cluster_specific`. -/
def write_cluster_specific (cluster_specific : String) : List String :=
  [cluster_specific ++ "\n\n"]

/-- Model of `SubmitPBS.write_glidein_variables`: the exported environment block. -/
def write_glidein_variables (mem num_cpus : Nat) (has_cvmfs : Bool) (num_gpus : Nat) :
    List String :=
  (if num_gpus ≠ 0 then
    [s!"export MEMORY={11 * mem / 10}\n"]
  else
    [s!"export MEMORY={mem}\n"]) ++
  [s!"export CPUS={num_cpus}\n"] ++
  (if num_gpus ≠ 0 then
    ["export GPUS=$CUDA_VISIBLE_DEVICES\n", "export GPUS=\"CUDA$GPUS\"\n"]
  else []) ++
  [s!"export CVMFS={pyBool has_cvmfs}\n\n"]

/-- Model of `SubmitPBS.write_glidin_part`: staging commands. -/
def write_glidin_part (local_dir : String) (glidein_tarball : Option String)
    (glidein_script glidein_loc : String) : List String :=
  [s!"cd {local_dir}\n\n"] ++
  (match glidein_tarball with
   | some tb => [s!"ln -s {glidein_loc}/{tb} {tb}\n"]
   | none => []) ++
  [s!"ln -s {glidein_loc}/{glidein_script} {glidein_script}\n",
   s!"./{glidein_script}\n"]

/-- Model of `SubmitPBS.write_submit_file`: the chunks written to the PBS script.
The effective memory is `state.memory` for GPU jobs and
`num_cpus * mem_per_core` otherwise (after escalation the per-core ceiling
always covers the request; with `mem_per_core = 0` and `memory > 0` the
source never reaches this point, looping forever). -/
def pbs_write_submit_file (cfg : Config) (state : GlideinState) : List String :=
  let num_cpus := if state.gpus = 0 then
      escalateCpus state.memory cfg.cluster.mem_per_core state.cpus
    else state.cpus
  let mem := if state.gpus > 0 then state.memory else num_cpus * cfg.cluster.mem_per_core
  write_general_header mem cfg.cluster.walltime_hrs 1 num_cpus state.gpus ++
  (match cfg.submitFile.custom_header with
   | some s => write_cluster_specific s
   | none => []) ++
  (match cfg.submitFile.custom_middle with
   | some s => write_cluster_specific s
   | none => []) ++
  write_glidein_variables mem state.cpus state.cvmfs state.gpus ++
  write_glidin_part cfg.submitFile.local_dir cfg.glidein.tarball
    cfg.glidein.executable cfg.glidein.loc ++
  (match cfg.submitFile.custom_end with
   | some s => write_cluster_specific s
   | none => [])

/-! ### Condor generator (`SubmitCondor`) -/

/-- Model of `SubmitCondor.make_env_wrapper`: the chunks written to the environment
wrapper script (fixed text except for the `CustomEnv` pairs and the
executable path). -/
def make_env_wrapper (cfg : Config) : List String :=
  ["#!/bin/sh\n",
   "CPUS=$(grep -e \"^Cpus\" $_CONDOR_MACHINE_AD|awk -F \"= \" \"\x7bprint \\$2\x7d\")\n",
   "MEMORY=$(grep -e \"^Memory\" $_CONDOR_MACHINE_AD|awk -F \"= \" \"\x7bprint \\$2\x7d\")\n",
   "DISK=$(grep -e \"^Disk\" $_CONDOR_MACHINE_AD|awk -F \"= \" \"\x7bprint \\$2\x7d\")\n",
   "GPUS=$(grep -e \"^AssignedGPUs\" $_CONDOR_MACHINE_AD|awk -F \"= \" \"\x7bprint \\$2\x7d\"|sed \"s/\\\"//g\")\n",
   "if ( [ -z $GPUS ] && [ ! -z $CUDA_VISIBLE_DEVICES ] ); then\n",
   "  GPUS=$CUDA_VISIBLE_DEVICES\n",
   "fi\n",
   "GPUS_NO_DIGITS=$(echo $GPUS | sed \x27s/[0-9]*//g\x27)\n",
   "if [ \"$\x7bGPUS_NO_DIGITS\x7d\" = \"$\x7bGPUS\x7d\" ]; then\n",
   "    GPUS=\"\"\n",
   "elif [ -z $GPUS_NO_DIGITS ]; then\n",
   "    GPUS=\"CUDA$\x7bGPUS\x7d\"\n",
   "fi\n",
   "if ( [ -z $GPUS ] || [ \"$GPUS\" = \"10000\" ] || [ \"$GPUS\" = \"CUDA10000\" ] ); then\n",
   "  GPUS=0\n",
   "fi\n",
   "env -i CPUS=$CPUS GPUS=$GPUS MEMORY=$MEMORY DISK=$DISK "] ++
  (cfg.customEnv.map fun kv => kv.1 ++ "=" ++ kv.2 ++ " ") ++
  [cfg.glidein.executable]

/-- The permission-mode update of `make_env_wrapper`:
`mode |= 0o111; fchmod(fd, mode & 0o7777)`. -/
def condorChmod (mode : Nat) : Nat := (mode ||| 0o111) &&& 0o7777

/-- Model of `sed "s/[0-9]*//g"`: delete every digit of the string. -/
def removeDigits (s : String) : String :=
  String.mk (s.data.filter fun c => !c.isDigit)

/-- The GPU-id sanitization performed at run time by the generated wrapper
(the fixed shell text emitted by `make_env_wrapper`), as a function of the
value `GPUS` holds after the machine-ad / `CUDA_VISIBLE_DEVICES` lookup:

    GPUS_NO_DIGITS=$(echo $GPUS | sed "s/[0-9]*//g")
    if [ "$GPUS_NO_DIGITS" = "$GPUS" ]; then GPUS=""
    elif [ -z $GPUS_NO_DIGITS ]; then GPUS="CUDA$GPUS"
    fi
    if ( [ -z $GPUS ] || [ "$GPUS" = "10000" ] || [ "$GPUS" = "CUDA10000" ] ); then
      GPUS=0
    fi

(`[ -z word ]` on a space-free word tests emptiness; machine-ad GPU fields
are single tokens). The result is the string value the `env -i` line
exports as `GPUS`. -/
def sanitizeGpus (gpus : String) : String :=
  let nd := removeDigits gpus
  let g1 := if nd = gpus then "" else if nd = "" then "CUDA" ++ gpus else gpus
  if g1 = "" ∨ g1 = "10000" ∨ g1 = "CUDA10000" then "0" else g1

/-- The error exits of `SubmitCondor.make_submit_file`:
`missingExecutable`/`missingTarball` are the two explicit
`raise Exception(...)` statements; `nameErrorPath` is the `NameError`
raised by evaluating the undefined name `path` in `f.write` of a comma plus `path`. -/
inductive CondorError where
  | missingExecutable
  | missingTarball
  | nameErrorPath
deriving DecidableEq, Repr

/-- The conditional `request_*` block of `SubmitCondor.make_submit_file`
(lines 277-284): `request_memory` value is `int(memory * 1.1)` and
`request_disk` value is `int(disk * 1024 * 1.1)` (floor division model). -/
def condor_requests (state : GlideinState) : List String :=
  (if state.cpus ≠ 0 then [s!"request_cpus={state.cpus}\n"] else []) ++
  (if state.memory ≠ 0 then [s!"request_memory={11 * state.memory / 10}\n"] else []) ++
  (if state.disk ≠ 0 then [s!"request_disk={11 * (state.disk * 1024) / 10}\n"] else []) ++
  (if state.gpus ≠ 0 then [s!"request_gpus={state.gpus}\n"] else [])

/-- Model of `SubmitCondor.make_submit_file`: returns the chunks written before the
function returned or raised, and the error if it raised.  `isfile` is
`os.path.isfile` on the filesystem at the time of the checks. -/
def make_submit_file (cfg : Config) (isfile : String → Bool) (state : GlideinState) :
    List String × Option CondorError :=
  let hdr :=
    (match cfg.submitFile.custom_header with
     | some s => [s]
     | none => []) ++
    ["output = /dev/null\n", "error = /dev/null\n", "log = log\n",
     "notification = never\n", "should_transfer_files = YES\n",
     "when_to_transfer_output = ON_EXIT\n", "\n",
     s!"executable = {cfg.submitFile.env_wrapper_name}\n",
     "+TransferOutput=\"\"\n"]
  if isfile cfg.glidein.executable then
    let c1 := hdr ++ [s!"transfer_input_files = {cfg.glidein.executable}"]
    match cfg.glidein.tarball with
    | some tb =>
      if isfile tb then
        -- the source evaluates the undefined name `path` here: NameError
        (c1, some .nameErrorPath)
      else
        (c1, some .missingTarball)
    | none =>
      (c1 ++ ["\n"] ++
       (match cfg.submitFile.custom_body with
        | some s => [s]
        | none => []) ++
       ["\n"] ++
       condor_requests state ++
       (match cfg.submitFile.custom_footer with
        | some s => [s]
        | none => []) ++
       ["queue"], none)
  else
    (hdr, some .missingExecutable)

/-! ### Filesystem model -/

/-- A filesystem: path to file content (when the file exists). -/
abbrev Fs := String → Option String

/-- Set the content of a path. -/
def fsWrite (fs : Fs) (p c : String) : Fs :=
  fun q => if q = p then some c else fs q

/-- Model of `os.path.isfile`. -/
def isfileFs (fs : Fs) (p : String) : Bool := (fs p).isSome

/-- Runs `SubmitPBS.write_submit_file` as a filesystem transformer
(the PBS generator reads nothing from disk). -/
def run_pbs_write_submit_file (cfg : Config) (state : GlideinState) (fs : Fs) : Fs :=
  fsWrite fs cfg.submitFile.filename (String.join (pbs_write_submit_file cfg state))

/-- Runs `SubmitCondor.make_env_wrapper` as a filesystem transformer. -/
def run_make_env_wrapper (cfg : Config) (fs : Fs) : Fs :=
  fsWrite fs cfg.submitFile.env_wrapper_name (String.join (make_env_wrapper cfg))

/-- Runs `SubmitCondor.make_submit_file` as a filesystem transformer:
`open(filename, "w")` creates/truncates the file first, so the later
`os.path.isfile` checks see it; the chunks written before a `raise` are
flushed when the `with` block closes the file. -/
def run_make_submit_file (cfg : Config) (state : GlideinState) (fs : Fs) : Fs :=
  let fs1 := fsWrite fs cfg.submitFile.filename ""
  let r := make_submit_file cfg (isfileFs fs1) state
  fsWrite fs1 cfg.submitFile.filename (String.join r.1)

/-- The shell command `SubmitCondor.submit` runs, or `none` when
`make_submit_file` raises first (the command is never reached). -/
def condor_submit_command (cfg : Config) (isfile : String → Bool)
    (state : GlideinState) : Option String :=
  match (make_submit_file cfg isfile state).2 with
  | some _ => none
  | none => some (cfg.cluster.submit_command ++ " " ++ cfg.submitFile.filename)

/-! ### Properties of the CPU-escalation loop -/

theorem escalateCpus_ge (memory mpc n : Nat) : n ≤ escalateCpus memory mpc n := by
  rw [escalateCpus]
  split
  · exact Nat.le_trans (Nat.le_succ n) (escalateCpus_ge memory mpc (n + 1))
  · exact Nat.le_refl n
termination_by memory - mpc * n
decreasing_by
  rw [Nat.mul_succ]
  omega

theorem escalateCpus_covers (memory mpc n : Nat) (hm : 0 < mpc) :
    memory ≤ mpc * escalateCpus memory mpc n := by
  rw [escalateCpus]
  split
  · exact escalateCpus_covers memory mpc (n + 1) hm
  · next h =>
      push_neg at h
      exact h hm
termination_by memory - mpc * n
decreasing_by
  rw [Nat.mul_succ]
  omega

theorem escalateCpus_min (memory mpc n m : Nat) (hnm : n ≤ m)
    (hm : memory ≤ mpc * m) : escalateCpus memory mpc n ≤ m := by
  rw [escalateCpus]
  split
  · next h =>
      apply escalateCpus_min memory mpc (n + 1) m _ hm
      rcases Nat.eq_or_lt_of_le hnm with rfl | hlt
      · exact absurd hm (by omega)
      · exact hlt
  · exact hnm
termination_by memory - mpc * n
decreasing_by
  rw [Nat.mul_succ]
  omega

theorem escalateCpus_gt (memory mpc n : Nat) (hm : 0 < mpc) (h : mpc * n < memory) :
    n < escalateCpus memory mpc n := by
  rw [escalateCpus, dif_pos ⟨hm, h⟩]
  exact Nat.lt_of_lt_of_le (Nat.lt_succ_self n) (escalateCpus_ge memory mpc (n + 1))

/-! ### Example configurations and states (shared by concrete instances) -/

/-- An example cluster configuration (PBS-style numbers, no optional text). -/
def exCfg : Config :=
  { cluster := { mem_per_core := 2048, walltime_hrs := 14, submit_command := "qsub" },
    submitFile := { filename := "glidein.submit", env_wrapper_name := "env_wrapper.sh",
                    local_dir := "/scratch", custom_header := none, custom_middle := none,
                    custom_body := none, custom_footer := none, custom_end := none },
    glidein := { executable := "glidein_start.sh", tarball := none, loc := "/glidein" },
    customEnv := [] }

/-- The configuration `exCfg` with a tarball configured. -/
def exCfgTar : Config :=
  { exCfg with glidein := { exCfg.glidein with tarball := some "glidein.tar.gz" } }

/-- The resource request of end-to-end scenario A. -/
def exState : GlideinState :=
  { cpus := 2, memory := 5000, disk := 0, gpus := 0, cvmfs := true }

/-- A GPU resource request. -/
def exStateGpu : GlideinState :=
  { cpus := 2, memory := 4000, disk := 10, gpus := 1, cvmfs := true }

/-- A request whose memory exercises the truncation in `request_memory`. -/
def exStateMem5 : GlideinState :=
  { cpus := 1, memory := 5, disk := 0, gpus := 0, cvmfs := false }

/-! ### Claims -/

/-- Claim C1. For every `gpus = 0` request and `mem_per_core > 0`, the PBS
`write_submit_file` chooses a CPU count that is never below `state.cpus` and
is the smallest `n ≥ state.cpus` with `n * mem_per_core ≥ state.memory`;
for `state = {cpus := 2, memory := 5000, gpus := 0}` and
`mem_per_core = 2048` the chosen count is 3 and the per-core memory
directive value is 2048. -/
theorem C1_pbs_cpu_escalation (cpus memory mpc : Nat) (hm : 0 < mpc) :
    (cpus ≤ escalateCpus memory mpc cpus ∧
     memory ≤ escalateCpus memory mpc cpus * mpc ∧
     ∀ m, cpus ≤ m → memory ≤ m * mpc → escalateCpus memory mpc cpus ≤ m) ∧
    (escalateCpus 5000 2048 2 = 3 ∧
     "#PBS -l mem=2048mb,pmem=2048mb\n" ∈ pbs_write_submit_file exCfg exState) := by
  refine ⟨⟨escalateCpus_ge memory mpc cpus, ?_, ?_⟩, ?_, ?_⟩
  · rw [Nat.mul_comm]
    exact escalateCpus_covers memory mpc cpus hm
  · intro m h1 h2
    exact escalateCpus_min memory mpc cpus m h1 (by rw [Nat.mul_comm]; exact h2)
  · simp [escalateCpus]
  · have h3 : escalateCpus 5000 2048 2 = 3 := by simp [escalateCpus]
    simp [pbs_write_submit_file, exCfg, exState, write_general_header, h3]
    decide

theorem C1_pbs_cpu_escalation_witness :
    (2 ≤ escalateCpus 5000 2048 2 ∧
     5000 ≤ escalateCpus 5000 2048 2 * 2048 ∧
     ∀ m, 2 ≤ m → 5000 ≤ m * 2048 → escalateCpus 5000 2048 2 ≤ m) ∧
    (escalateCpus 5000 2048 2 = 3 ∧
     "#PBS -l mem=2048mb,pmem=2048mb\n" ∈ pbs_write_submit_file exCfg exState) :=
  C1_pbs_cpu_escalation 2 5000 2048 (by decide)

/-- Claim C4. For every request with `gpus > 0` (and `cpus > 0`, without which
the source divides by zero), the PBS generator uses `state.memory`
unmodified (no per-core ceiling, no escalation: the `#PBS` node line keeps
`ppn = state.cpus`), writes the per-core memory directive
`(memory / cpus) * 1.1` (truncated by `%d`), and exports `MEMORY`
inflated by 10 % (truncated by `%d`). -/
theorem C4_pbs_gpu_memory (cfg : Config) (state : GlideinState)
    (hg : 0 < state.gpus) (_hc : 0 < state.cpus) :
    s!"#PBS -l nodes={1}:ppn={state.cpus}:gpus={state.gpus}\n"
      ∈ pbs_write_submit_file cfg state ∧
    s!"#PBS -l mem={11 * state.memory / (10 * state.cpus)}mb,pmem={11 * state.memory / (10 * state.cpus)}mb\n"
      ∈ pbs_write_submit_file cfg state ∧
    s!"export MEMORY={11 * state.memory / 10}\n" ∈ pbs_write_submit_file cfg state := by
  have hg' : ¬ state.gpus = 0 := by omega
  refine ⟨?_, ?_, ?_⟩ <;>
    simp [pbs_write_submit_file, write_general_header, write_glidein_variables,
          write_glidin_part, hg, hg']

theorem C4_pbs_gpu_memory_witness :
    s!"#PBS -l nodes={1}:ppn={exStateGpu.cpus}:gpus={exStateGpu.gpus}\n"
      ∈ pbs_write_submit_file exCfg exStateGpu ∧
    s!"#PBS -l mem={11 * exStateGpu.memory / (10 * exStateGpu.cpus)}mb,pmem={11 * exStateGpu.memory / (10 * exStateGpu.cpus)}mb\n"
      ∈ pbs_write_submit_file exCfg exStateGpu ∧
    s!"export MEMORY={11 * exStateGpu.memory / 10}\n" ∈ pbs_write_submit_file exCfg exStateGpu :=
  C4_pbs_gpu_memory exCfg exStateGpu (by decide) (by decide)

/-- Claim C9. For every `gpus = 0` request whose memory exceeds
`mem_per_core * cpus`, the exported `CPUS` variable equals the raw
`state.cpus` while the `#PBS` `ppn` field of the header holds the strictly
larger escalated count, so the two differ. -/
theorem C9_pbs_exported_cpus_mismatch (cfg : Config) (state : GlideinState)
    (hm : 0 < cfg.cluster.mem_per_core) (hg : state.gpus = 0)
    (hmem : cfg.cluster.mem_per_core * state.cpus < state.memory) :
    state.cpus < escalateCpus state.memory cfg.cluster.mem_per_core state.cpus ∧
    s!"export CPUS={state.cpus}\n" ∈ pbs_write_submit_file cfg state ∧
    s!"#PBS -l nodes={1}:ppn={escalateCpus state.memory cfg.cluster.mem_per_core state.cpus}\n"
      ∈ pbs_write_submit_file cfg state := by
  refine ⟨escalateCpus_gt state.memory cfg.cluster.mem_per_core state.cpus hm hmem, ?_, ?_⟩ <;>
    simp [pbs_write_submit_file, write_general_header, write_glidein_variables,
          write_glidin_part, hg]

theorem C9_pbs_exported_cpus_mismatch_witness :
    exState.cpus < escalateCpus exState.memory exCfg.cluster.mem_per_core exState.cpus ∧
    s!"export CPUS={exState.cpus}\n" ∈ pbs_write_submit_file exCfg exState ∧
    s!"#PBS -l nodes={1}:ppn={escalateCpus exState.memory exCfg.cluster.mem_per_core exState.cpus}\n"
      ∈ pbs_write_submit_file exCfg exState :=
  C9_pbs_exported_cpus_mismatch exCfg exState (by decide) rfl (by decide)

theorem fsWrite_fsWrite (fs : Fs) (p c c' : String) :
    fsWrite (fsWrite fs p c) p c' = fsWrite fs p c' := by
  funext q
  by_cases h : q = p <;> simp [fsWrite, h]

theorem run_make_submit_file_truncate (cfg : Config) (state : GlideinState) (fs : Fs) :
    fsWrite (run_make_submit_file cfg state fs) cfg.submitFile.filename ""
      = fsWrite fs cfg.submitFile.filename "" := by
  funext q
  by_cases h : q = cfg.submitFile.filename <;>
    simp [run_make_submit_file, fsWrite, h]

/-- Claim C7. For fixed `state` and config, each generator is a deterministic
filesystem transformer: writing the same file twice leaves exactly the state
of one run, and the second Condor run emits byte-for-byte the same chunks as
the first (the `isfile` checks see the same picture because `open(_, "w")`
creates the target file before any check on either run). -/
theorem C7_generators_idempotent (cfg : Config) (state : GlideinState) (fs : Fs) :
    run_pbs_write_submit_file cfg state (run_pbs_write_submit_file cfg state fs)
      = run_pbs_write_submit_file cfg state fs ∧
    run_make_env_wrapper cfg (run_make_env_wrapper cfg fs)
      = run_make_env_wrapper cfg fs ∧
    make_submit_file cfg
        (isfileFs (fsWrite (run_make_submit_file cfg state fs) cfg.submitFile.filename "")) state
      = make_submit_file cfg (isfileFs (fsWrite fs cfg.submitFile.filename "")) state ∧
    run_make_submit_file cfg state (run_make_submit_file cfg state fs)
      = run_make_submit_file cfg state fs := by
  refine ⟨?_, ?_, ?_, ?_⟩
  · simp [run_pbs_write_submit_file, fsWrite_fsWrite]
  · simp [run_make_env_wrapper, fsWrite_fsWrite]
  · rw [run_make_submit_file_truncate]
  · conv_lhs => rw [run_make_submit_file]
    rw [run_make_submit_file_truncate]
    simp [run_make_submit_file, fsWrite_fsWrite]

theorem testBit_small_false {c : Nat} (i : Nat) (hc : c < 2 ^ 12) (hi : 12 ≤ i) :
    Nat.testBit c i = false :=
  Nat.testBit_eq_false_of_lt
    (lt_of_lt_of_le hc (Nat.pow_le_pow_right (by norm_num) hi))

/-- Claim C8. The permission update of the wrapper `(mode | 0o111) & 0o7777` sets
the execute bit for owner, group and other, and leaves every read and write
permission bit of the original mode unchanged. -/
theorem C8_wrapper_mode_exec_bits (mode : Nat) :
    condorChmod mode &&& 0o111 = 0o111 ∧
    condorChmod mode &&& 0o666 = mode &&& 0o666 := by
  constructor <;>
  · apply Nat.eq_of_testBit_eq
    intro i
    simp only [condorChmod, Nat.testBit_land, Nat.testBit_lor]
    by_cases hi : i < 12
    · cases hb : mode.testBit i <;> interval_cases i <;> decide
    · simp [testBit_small_false i (by norm_num : (0o7777:Nat) < 2^12) (by omega),
            testBit_small_false i (by norm_num : (0o111:Nat) < 2^12) (by omega),
            testBit_small_false i (by norm_num : (0o666:Nat) < 2^12) (by omega)]

/-- Claim C5. When the configured Glidein executable path does not exist, the
Condor `make_submit_file` raises the missing-executable error: the last
chunk written is the `+TransferOutput` directive (so no `queue` line is
written), and `submit` never reaches the submit command. -/
theorem C5_condor_missing_executable (cfg : Config) (state : GlideinState)
    (isfile : String → Bool) (h : isfile cfg.glidein.executable = false) :
    (make_submit_file cfg isfile state).2 = some CondorError.missingExecutable ∧
    (make_submit_file cfg isfile state).1.getLast? = some "+TransferOutput=\"\"\n" ∧
    condor_submit_command cfg isfile state = none := by
  refine ⟨?_, ?_, ?_⟩ <;>
    simp [make_submit_file, condor_submit_command, h]

theorem C5_condor_missing_executable_witness :
    (make_submit_file exCfg (fun _ => false) exState).2 = some CondorError.missingExecutable ∧
    (make_submit_file exCfg (fun _ => false) exState).1.getLast? = some "+TransferOutput=\"\"\n" ∧
    condor_submit_command exCfg (fun _ => false) exState = none :=
  C5_condor_missing_executable exCfg exState (fun _ => false) rfl

/-- Claim C10. When the executable is missing, the raise is not atomic: the
target submit file has already been created (by `open(filename, "w")`) and
is left on disk holding exactly the boilerplate chunks written before the
check — output/error/log/notification/transfer directives, the `executable`
line and `+TransferOutput`. -/
theorem C10_condor_partial_file_on_error (cfg : Config) (state : GlideinState) (fs : Fs)
    (h1 : fs cfg.glidein.executable = none)
    (h2 : cfg.glidein.executable ≠ cfg.submitFile.filename) :
    (make_submit_file cfg (isfileFs (fsWrite fs cfg.submitFile.filename "")) state).2
      = some CondorError.missingExecutable ∧
    run_make_submit_file cfg state fs cfg.submitFile.filename
      = some (String.join
          (make_submit_file cfg (isfileFs (fsWrite fs cfg.submitFile.filename "")) state).1) ∧
    ("output = /dev/null\n"
        ∈ (make_submit_file cfg (isfileFs (fsWrite fs cfg.submitFile.filename "")) state).1 ∧
     "error = /dev/null\n"
        ∈ (make_submit_file cfg (isfileFs (fsWrite fs cfg.submitFile.filename "")) state).1 ∧
     "log = log\n"
        ∈ (make_submit_file cfg (isfileFs (fsWrite fs cfg.submitFile.filename "")) state).1 ∧
     "notification = never\n"
        ∈ (make_submit_file cfg (isfileFs (fsWrite fs cfg.submitFile.filename "")) state).1 ∧
     "should_transfer_files = YES\n"
        ∈ (make_submit_file cfg (isfileFs (fsWrite fs cfg.submitFile.filename "")) state).1 ∧
     "when_to_transfer_output = ON_EXIT\n"
        ∈ (make_submit_file cfg (isfileFs (fsWrite fs cfg.submitFile.filename "")) state).1 ∧
     s!"executable = {cfg.submitFile.env_wrapper_name}\n"
        ∈ (make_submit_file cfg (isfileFs (fsWrite fs cfg.submitFile.filename "")) state).1 ∧
     "+TransferOutput=\"\"\n"
        ∈ (make_submit_file cfg (isfileFs (fsWrite fs cfg.submitFile.filename "")) state).1) := by
  have hiso : isfileFs (fsWrite fs cfg.submitFile.filename "") cfg.glidein.executable = false := by
    simp [isfileFs, fsWrite, h1, h2]
  refine ⟨?_, ?_, ?_⟩
  · simp [make_submit_file, hiso]
  · simp [run_make_submit_file, fsWrite]
  · refine ⟨?_, ?_, ?_, ?_, ?_, ?_, ?_, ?_⟩ <;>
      simp [make_submit_file, hiso]

theorem C10_condor_partial_file_on_error_witness :
    (make_submit_file exCfg (isfileFs (fsWrite (fun _ => none) exCfg.submitFile.filename "")) exState).2
      = some CondorError.missingExecutable ∧
    run_make_submit_file exCfg exState (fun _ => none) exCfg.submitFile.filename
      = some (String.join
          (make_submit_file exCfg (isfileFs (fsWrite (fun _ => none) exCfg.submitFile.filename "")) exState).1) ∧
    ("output = /dev/null\n"
        ∈ (make_submit_file exCfg (isfileFs (fsWrite (fun _ => none) exCfg.submitFile.filename "")) exState).1 ∧
     "error = /dev/null\n"
        ∈ (make_submit_file exCfg (isfileFs (fsWrite (fun _ => none) exCfg.submitFile.filename "")) exState).1 ∧
     "log = log\n"
        ∈ (make_submit_file exCfg (isfileFs (fsWrite (fun _ => none) exCfg.submitFile.filename "")) exState).1 ∧
     "notification = never\n"
        ∈ (make_submit_file exCfg (isfileFs (fsWrite (fun _ => none) exCfg.submitFile.filename "")) exState).1 ∧
     "should_transfer_files = YES\n"
        ∈ (make_submit_file exCfg (isfileFs (fsWrite (fun _ => none) exCfg.submitFile.filename "")) exState).1 ∧
     "when_to_transfer_output = ON_EXIT\n"
        ∈ (make_submit_file exCfg (isfileFs (fsWrite (fun _ => none) exCfg.submitFile.filename "")) exState).1 ∧
     s!"executable = {exCfg.submitFile.env_wrapper_name}\n"
        ∈ (make_submit_file exCfg (isfileFs (fsWrite (fun _ => none) exCfg.submitFile.filename "")) exState).1 ∧
     "+TransferOutput=\"\"\n"
        ∈ (make_submit_file exCfg (isfileFs (fsWrite (fun _ => none) exCfg.submitFile.filename "")) exState).1) :=
  C10_condor_partial_file_on_error exCfg exState (fun _ => none) rfl (by decide)

/-- Claim C2 (code bug). With a tarball configured and both files present on
disk, the source reaches `f.write` of a comma plus `path` where `path` is an undefined
name: instead of appending a comma and the tarball path to
`transfer_input_files`, the call raises `NameError` after the executable
path has been written, and the `queue` line is never reached. -/
theorem C2_condor_tarball_write_is_nameerror :
    (make_submit_file exCfgTar (fun _ => true) exState).2 = some CondorError.nameErrorPath ∧
    "transfer_input_files = glidein_start.sh"
      ∈ (make_submit_file exCfgTar (fun _ => true) exState).1 ∧
    "queue" ∉ (make_submit_file exCfgTar (fun _ => true) exState).1 := by
  refine ⟨rfl, ?_, ?_⟩ <;> decide

/-- Two `key=<number>\n` lines with key texts that differ at character 8
are never equal, whatever the numbers are. -/
theorem str_num_line_ne (p q : String) (v w : Nat)
    (hp : 8 < p.data.length) (hq : 8 < q.data.length)
    (hne : p.data[8]? ≠ q.data[8]?) :
    p ++ (toString v ++ "\n") ≠ q ++ (toString w ++ "\n") := by
  intro h
  have h2 := congrArg (fun s => s.data[8]?) h
  simp only [String.data_append] at h2
  rw [List.getElem?_append_left hp, List.getElem?_append_left hq] at h2
  exact hne h2

/-- Membership in the `request_*` block, characterized. -/
theorem condor_requests_mem (state : GlideinState) (c : String) :
    c ∈ condor_requests state ↔
      (state.cpus ≠ 0 ∧ c = s!"request_cpus={state.cpus}\n") ∨
      (state.memory ≠ 0 ∧ c = s!"request_memory={11 * state.memory / 10}\n") ∨
      (state.disk ≠ 0 ∧ c = s!"request_disk={11 * (state.disk * 1024) / 10}\n") ∨
      (state.gpus ≠ 0 ∧ c = s!"request_gpus={state.gpus}\n") := by
  by_cases h1 : state.cpus = 0 <;> by_cases h2 : state.memory = 0 <;>
    by_cases h3 : state.disk = 0 <;> by_cases h4 : state.gpus = 0 <;>
      simp [condor_requests, h1, h2, h3, h4]

/-- Claim C3, counterexample. The claim says the emitted `request_memory`
value is `round(memory × 1.1)`; at `memory = 5` the source emits
`int(5 * 1.1) = 5` while `round(5 × 1.1) = 6`. -/
theorem C3_counterexample_request_memory_round :
    "request_memory=5\n" ∈ (make_submit_file exCfg (fun _ => true) exStateMem5).1 ∧
    "request_memory=6\n" ∉ (make_submit_file exCfg (fun _ => true) exStateMem5).1 ∧
    round ((5 : ℚ) * (11 / 10)) = 6 := by
  refine ⟨by decide, by decide, ?_⟩
  norm_num [round_eq]

/-- Claim C3, amended. On the success path (executable present, no tarball),
the Condor submit file contains `request_memory` with value
`⌊memory × 1.1⌋` iff `memory ≠ 0` and `request_disk` with value
`⌊disk × 1024 × 1.1⌋` iff `disk ≠ 0` (truncation, not rounding); a zero
input omits the corresponding directive entirely. -/
theorem C3_condor_request_directives (cfg : Config) (state : GlideinState)
    (isfile : String → Bool) (hexe : isfile cfg.glidein.executable = true)
    (htb : cfg.glidein.tarball = none) :
    (state.memory ≠ 0 →
      s!"request_memory={11 * state.memory / 10}\n" ∈ (make_submit_file cfg isfile state).1) ∧
    (state.disk ≠ 0 →
      s!"request_disk={11 * (state.disk * 1024) / 10}\n" ∈ (make_submit_file cfg isfile state).1) ∧
    (state.memory = 0 → ∀ v : Nat, s!"request_memory={v}\n" ∉ condor_requests state) ∧
    (state.disk = 0 → ∀ v : Nat, s!"request_disk={v}\n" ∉ condor_requests state) ∧
    11 * state.memory / 10 = ⌊(state.memory : ℚ) * (11 / 10)⌋₊ ∧
    11 * (state.disk * 1024) / 10 = ⌊(state.disk : ℚ) * 1024 * (11 / 10)⌋₊ := by
  refine ⟨?_, ?_, ?_, ?_, ?_, ?_⟩
  · intro hmem
    have hin : s!"request_memory={11 * state.memory / 10}\n" ∈ condor_requests state :=
      (condor_requests_mem state _).mpr (Or.inr (Or.inl ⟨hmem, rfl⟩))
    simp only [make_submit_file, hexe, htb, if_true]
    simp [List.mem_append, hin]
  · intro hdisk
    have hin : s!"request_disk={11 * (state.disk * 1024) / 10}\n" ∈ condor_requests state :=
      (condor_requests_mem state _).mpr (Or.inr (Or.inr (Or.inl ⟨hdisk, rfl⟩)))
    simp only [make_submit_file, hexe, htb, if_true]
    simp [List.mem_append, hin]
  · intro h0 v hv
    rcases (condor_requests_mem state _).mp hv with ⟨_, he⟩ | ⟨hm, _⟩ | ⟨_, he⟩ | ⟨_, he⟩
    · exact str_num_line_ne "request_memory=" "request_cpus=" v state.cpus
        (by decide) (by decide) (by decide) he
    · exact hm h0
    · exact str_num_line_ne "request_memory=" "request_disk=" v (11 * (state.disk * 1024) / 10)
        (by decide) (by decide) (by decide) he
    · exact str_num_line_ne "request_memory=" "request_gpus=" v state.gpus
        (by decide) (by decide) (by decide) he
  · intro h0 v hv
    rcases (condor_requests_mem state _).mp hv with ⟨_, he⟩ | ⟨_, he⟩ | ⟨hd, _⟩ | ⟨_, he⟩
    · exact str_num_line_ne "request_disk=" "request_cpus=" v state.cpus
        (by decide) (by decide) (by decide) he
    · exact str_num_line_ne "request_disk=" "request_memory=" v (11 * state.memory / 10)
        (by decide) (by decide) (by decide) he
    · exact hd h0
    · exact str_num_line_ne "request_disk=" "request_gpus=" v state.gpus
        (by decide) (by decide) (by decide) he
  · have hm : (state.memory : ℚ) * (11 / 10) = ((11 * state.memory : ℕ) : ℚ) / ((10 : ℕ) : ℚ) := by
      push_cast
      ring
    rw [hm, Nat.floor_div_nat, Nat.floor_natCast]
  · have hd : (state.disk : ℚ) * 1024 * (11 / 10)
        = ((11 * (state.disk * 1024) : ℕ) : ℚ) / ((10 : ℕ) : ℚ) := by
      push_cast
      ring
    rw [hd, Nat.floor_div_nat, Nat.floor_natCast]

/-- A request with nonzero memory and disk, for concrete instantiation. -/
def exStateDisk : GlideinState :=
  { cpus := 1, memory := 5, disk := 2, gpus := 0, cvmfs := false }

theorem C3_condor_request_directives_witness :
    (exStateDisk.memory ≠ 0 →
      s!"request_memory={11 * exStateDisk.memory / 10}\n"
        ∈ (make_submit_file exCfg (fun _ => true) exStateDisk).1) ∧
    (exStateDisk.disk ≠ 0 →
      s!"request_disk={11 * (exStateDisk.disk * 1024) / 10}\n"
        ∈ (make_submit_file exCfg (fun _ => true) exStateDisk).1) ∧
    (exStateDisk.memory = 0 → ∀ v : Nat, s!"request_memory={v}\n" ∉ condor_requests exStateDisk) ∧
    (exStateDisk.disk = 0 → ∀ v : Nat, s!"request_disk={v}\n" ∉ condor_requests exStateDisk) ∧
    11 * exStateDisk.memory / 10 = ⌊(exStateDisk.memory : ℚ) * (11 / 10)⌋₊ ∧
    11 * (exStateDisk.disk * 1024) / 10 = ⌊(exStateDisk.disk : ℚ) * 1024 * (11 / 10)⌋₊ :=
  C3_condor_request_directives exCfg exStateDisk (fun _ => true) rfl rfl

/-- Appending to the literal prefix is injective: `"CUDA" ++ s` determines `s`. -/
theorem cuda_append_inj (s t : String) (h : "CUDA" ++ s = "CUDA" ++ t) : s = t := by
  apply String.ext
  have h2 := congrArg String.data h
  simpa [String.data_append] using h2

/-- Claim C6, counterexample. The claim says an empty machine-ad GPU field
yields `GPUS=""`; in the generated wrapper the empty intermediate value is
caught by the final sentinel test `[ -z $GPUS ] || ...` and the exported
value is `0`, not the empty string. -/
theorem C6_counterexample_empty_field :
    sanitizeGpus "" = "0" ∧ sanitizeGpus "" ≠ "" := by
  decide

/-- Claim C6, amended. The sanitization in the wrapper maps an all-digit field
other than `10000` to `CUDA<digits>` (in particular `"0"` to `"CUDA0"`,
not treated as "no GPU"); a field with no digit at all — including the
empty field — to `0` (the empty intermediate value falls through to the
sentinel branch); and the sentinels `10000` / `CUDA10000` to `0`. -/
theorem C6_gpu_sanitization_amended :
    (∀ s : String, s ≠ "" → (∀ c ∈ s.data, c.isDigit) → s ≠ "10000" →
      sanitizeGpus s = "CUDA" ++ s) ∧
    sanitizeGpus "0" = "CUDA0" ∧
    (∀ s : String, (∀ c ∈ s.data, ¬ c.isDigit = true) → sanitizeGpus s = "0") ∧
    sanitizeGpus "10000" = "0" ∧
    sanitizeGpus "CUDA10000" = "0" := by
  refine ⟨?_, by decide, ?_, by decide, by decide⟩
  · intro s hne hdig h5
    have hf : s.data.filter (fun c => !c.isDigit) = [] := by
      rw [List.filter_eq_nil_iff]
      intro a ha
      simp [hdig a ha]
    have hnd : removeDigits s = "" := by
      simp only [removeDigits, hf]
    have hcne : ¬("CUDA" ++ s = "" ∨ "CUDA" ++ s = "10000" ∨ "CUDA" ++ s = "CUDA10000") := by
      rintro (h | h | h)
      · have h2 := congrArg (fun t => t.data[0]?) h
        simp only [String.data_append] at h2
        rw [List.getElem?_append_left (by decide)] at h2
        revert h2
        decide
      · have h2 := congrArg (fun t => t.data[0]?) h
        simp only [String.data_append] at h2
        rw [List.getElem?_append_left (by decide)] at h2
        revert h2
        decide
      · exact h5 (cuda_append_inj s "10000" (by rw [h]; decide))
    simp only [sanitizeGpus]
    rw [hnd]
    rw [if_neg (show ¬("" = s) from fun hh => hne hh.symm)]
    rw [if_pos (rfl : ("" : String) = "")]
    rw [if_neg hcne]
  · intro s hdig
    have hf : s.data.filter (fun c => !c.isDigit) = s.data :=
      List.filter_eq_self.mpr (by intro a ha; simpa using hdig a ha)
    have hnd : removeDigits s = s := by
      simp only [removeDigits, hf]
    simp only [sanitizeGpus]
    rw [hnd]
    rw [if_pos (rfl : s = s)]
    rw [if_pos
      (Or.inl rfl : ("" : String) = "" ∨ ("" : String) = "10000" ∨ ("" : String) = "CUDA10000")]

theorem C6_gpu_sanitization_amended_witness :
    sanitizeGpus "7" = "CUDA" ++ "7" ∧ sanitizeGpus "abc" = "0" :=
  ⟨C6_gpu_sanitization_amended.1 "7" (by decide) (by decide) (by decide),
   C6_gpu_sanitization_amended.2.2.1 "abc" (by decide)⟩
